import Mathlib

/-!
# Verification of `logix_trend_converter/converter.py`

A shallow embedding of the normalization pipeline from
`src/logix_trend_converter/converter.py` together with proofs about the
claims of the natural-language specification.

Modelling conventions:
* Python `str` becomes Lean `String`; character-level operations are done on
  `String.data` (`List Char`), which mirrors Python string slicing/iteration.
* Python exceptions become an explicit `PyError` value threaded through
  `Except`; a `try/except` block becomes a `match` on the body's outcome.
* File I/O cannot be embedded: the bytes-and-decode step of the sidecar file
  is represented by its observable outcome (`Option String`: `none` means the
  bytes failed to decode under cp850, i.e. `UnicodeDecodeError`), and the
  primary DBF file by the dataframe the external `Dbf5` decoder returns.
* A pandas `DataFrame` becomes an ordered association list of
  (column name, column values); a column is homogeneously typed, either
  strings (everything the DBF decoder produces here) or parsed datetimes.
-/

deriving instance DecidableEq for Except

/-- The Python exception classes that appear in `converter.py`. -/
inductive PyError where
  | typeError
  | valueError
  | keyError
  | unicodeDecodeError
deriving DecidableEq, Repr

/-- A dynamically-typed Python value, as far as the `isinstance` checks in
`_make_placeholder_header_dict` observe it: an `int`, a `str`, or anything
else (represented by `floatVal`, standing for any non-int non-str object;
its payload is irrelevant to the checks). -/
inductive PyVal where
  | intVal (n : Int)
  | strVal (s : String)
  | floatVal
deriving DecidableEq, Repr

def PyVal.isInt : PyVal → Bool
  | .intVal _ => true
  | _ => false

def PyVal.isStr : PyVal → Bool
  | .strVal _ => true
  | _ => false

/-- Keys of a Python dict used for `DataFrame.rename(columns=...)`: the
header dict parsed from an IDX sidecar has `str` keys (the captured digit
strings), while `_make_placeholder_header_dict` produces `int` keys. -/
inductive ColKey where
  | str (s : String)
  | int (n : Nat)
deriving DecidableEq, Repr

/-- A Python dict from column keys to names, represented as an association
list in key-insertion order with pairwise-distinct keys. -/
abbrev HeaderDict := List (ColKey × String)

/-- Python `f"{s:0>w}"`: left-pad with `'0'` to width at least `w`.
Used with `w = 3` on the `Millitm` strings and `w = 2` on placeholder
indices. -/
def padLeftZeros (w : Nat) (s : String) : String :=
  ⟨List.replicate (w - s.data.length) '0' ++ s.data⟩

/-- The comprehension on line 186 of `converter.py`:
`{y_int: f"{column_prefix}{y_int:0>2}" for y_int in range(n_columns)}`. -/
def placeholderRange (n : Nat) ( column_prefix : String) : HeaderDict :=
  (List.range n).map (fun y_int => (ColKey.int y_int, column_prefix ++ padLeftZeros 2 (Nat.repr y_int)))

/-- `_make_placeholder_header_dict` (converter.py lines 151-186), with the
dynamic `isinstance` checks made explicit on `PyVal` arguments.  Checks, in
source order: `n_columns` must be an `int` (else `TypeError`), must be
`>= 1` (else `ValueError`), and `column_prefix` must be a `str`
(else `TypeError`). -/
def _make_placeholder_header_dict (n_columns : PyVal) ( column_prefix : PyVal) :
    Except PyError HeaderDict :=
  match n_columns with
  | .intVal n =>
      if n < 1 then .error .valueError
      else
        match column_prefix with
        | .strVal p => .ok (placeholderRange n.toNat p)
        | _ => .error .typeError
  | _ => .error .typeError

/-- The spec's `InvalidArgument` error category (§7: "wrong locator type or
malformed configuration value").  In the Python source such argument
validation failures surface as `TypeError` (wrong dynamic type) or
`ValueError` (well-typed but malformed value), so the category covers both
classes. -/
def specInvalidArgument (e : PyError) : Prop :=
  e = .typeError ∨ e = .valueError

theorem placeholderRange_length (n : Nat) (p : String) :
    (placeholderRange n p).length = n := by
  simp [placeholderRange]

theorem placeholderRange_keys (n : Nat) (p : String) :
    (placeholderRange n p).map Prod.fst = (List.range n).map ColKey.int := by
  simp [placeholderRange]

/-- `List.lookup` distributes over append. -/
theorem lookup_append {α β : Type} [BEq α] (l₁ l₂ : List (α × β)) (a : α) :
    List.lookup a (l₁ ++ l₂) =
      (match List.lookup a l₁ with
       | some b => some b
       | none => List.lookup a l₂) := by
  induction l₁ with
  | nil => simp [List.lookup]
  | cons hd tl ih =>
      by_cases h : a == hd.1
      · simp [List.lookup, h]
      · simp [List.lookup, h, ih]

theorem placeholderRange_lookup (n : Nat) (p : String) :
    ∀ i, i < n →
      List.lookup (ColKey.int i) (placeholderRange n p) =
        some (p ++ padLeftZeros 2 (Nat.repr i)) := by
  induction n with
  | zero => intro i hi; omega
  | succ m ih =>
      intro i hi
      rw [placeholderRange, List.range_succ, List.map_append]
      rw [lookup_append]
      rcases Nat.lt_or_ge i m with h | h
      · rw [show ((List.range m).map
            (fun y_int => (ColKey.int y_int, p ++ padLeftZeros 2 (Nat.repr y_int)))) =
            placeholderRange m p from rfl]
        rw [ih i h]
      · have : i = m := by omega
        subst this
        have hnone : List.lookup (ColKey.int i) (placeholderRange i p) = none := by
          rw [List.lookup_eq_none_iff]
          intro hk hmem
          simp only [placeholderRange, List.mem_map, List.mem_range] at hmem
          obtain ⟨j, hj, rfl⟩ := hmem
          simp only [bne_iff_ne, ne_eq]
          intro hij
          cases hij
          omega
        rw [show ((List.range i).map
            (fun y_int => (ColKey.int y_int, p ++ padLeftZeros 2 (Nat.repr y_int)))) =
            placeholderRange i p from rfl]
        rw [hnone]
        simp [List.lookup]

/-- Python `\s` on `str` patterns: Unicode whitespace.  Only characters that
can appear in cp850-decoded text are listed (ASCII whitespace, the C1
controls `\x1c`-`\x1f` and `\x85`, and no-break space `\xa0`). -/
def isPyWhitespace (c : Char) : Bool :=
  c = ' ' ∨ c = '\t' ∨ c = '\n' ∨ c = '\r' ∨ c = '\x0b' ∨ c = '\x0c' ∨
  c = '\x1c' ∨ c = '\x1d' ∨ c = '\x1e' ∨ c = '\x1f' ∨ c = '\x85' ∨ c = '\xa0'

/-- Python `\d` restricted to the ASCII digits (the only digits cp850 text
can contain). -/
def isAsciiDigit (c : Char) : Bool :=
  48 ≤ c.toNat ∧ c.toNat ≤ 57

/-- One scanning pass of `re.findall(r"\s\b(\d+)(\S*)\s?", s)`
(converter.py line 127), on the character list of the decoded sidecar text.

At each position the engine tries to match: one whitespace character, a word
boundary (redundant here: the following `\d+` already forces a word
character), a maximal run of digits (first capture), a maximal run of
non-whitespace characters (second capture), and then `\s?` greedily consumes
one following whitespace character when there is one.  On failure the scan
advances one character; matches are non-overlapping, so scanning resumes
after the consumed trailing whitespace.

The `fuel` argument only bounds the recursion; every step consumes at least
one character, so `fuel = cs.length` (as supplied by `findTokens`) never
runs out. -/
def findTokensAux : Nat → List Char → List (String × String)
  | 0, _ => []
  | _ + 1, [] => []
  | fuel + 1, c :: rest =>
      if isPyWhitespace c ∧ rest.takeWhile isAsciiDigit ≠ [] then
        let ds := rest.takeWhile isAsciiDigit
        let after₁ := rest.dropWhile isAsciiDigit
        let ns := after₁.takeWhile (fun x => ¬ isPyWhitespace x)
        let after₂ := after₁.dropWhile (fun x => ¬ isPyWhitespace x)
        let after₃ := match after₂ with
          | [] => []
          | _ :: tl => tl
        (⟨ds⟩, ⟨ns⟩) :: findTokensAux fuel after₃
      else
        findTokensAux fuel rest

/-- `re.findall(r"\s\b(\d+)(\S*)\s?", s)` for a decoded sidecar string. -/
def findTokens (s : String) : List (String × String) :=
  findTokensAux s.data.length s.data

/-- Insertion into a Python dict: an existing key keeps its position and gets
the new value, a new key is appended. -/
def dictInsert (d : HeaderDict) (k : ColKey) (v : String) : HeaderDict :=
  if d.any (fun p => p.1 = k) then
    d.map (fun p => if p.1 = k then (k, v) else p)
  else
    d ++ [(k, v)]

/-- The dict comprehension `{k: v for (k, v) in tokens}` (converter.py
line 144): repeated keys keep their first position and take the last
value. -/
def dictOfTokens (tokens : List (String × String)) : HeaderDict :=
  tokens.foldl (fun d kv => dictInsert d (.str kv.1) kv.2) []

/-- Warning logged at converter.py lines 133-135. -/
def decodeWarnMsg : String :=
  "There was an error decoding the IDX header file. Placeholder tag names will be used instead."

/-- Warning logged at converter.py lines 138-140. -/
def emptyWarnMsg : String :=
  "The provided IDX header file appears to be empty after decoding. Placeholder tag names will be used instead."

/-- The observable outcome of handing `_parse_header_file` a file locator:
either the argument was not a `str`/`Path` (`badType`), or the path does not
refer to an existing regular file (`missingFile`), or the file exists and
its bytes decode under cp850 to `some` text — `none` standing for a
`UnicodeDecodeError`. -/
inductive FileArg where
  | badType
  | missingFile
  | existsWithBytes (decoded : Option String)
deriving DecidableEq, Repr

/-- The body of the `try:` block of `_parse_header_file` (converter.py lines
116-130): raise `UnicodeDecodeError` if the bytes do not decode, `ValueError`
if the decoded text is empty or yields zero tokens, otherwise produce the
token dict. -/
def parseHeaderTry (decoded : Option String) : Except PyError HeaderDict :=
  match decoded with
  | none => .error .unicodeDecodeError
  | some s =>
      if s.length = 0 then .error .valueError
      else
        let tokens := findTokens s
        if tokens.length = 0 then .error .valueError
        else .ok (dictOfTokens tokens)

/-- `_parse_header_file` (converter.py lines 80-148).  The locator checks
(lines 98-111) raise `TypeError` / `ValueError` and are fatal; the
`try/except` (lines 116-141) downgrades `UnicodeDecodeError` and `ValueError`
to a `none` result plus a logged warning, returned here alongside the list of
warnings emitted. -/
def _parse_header_file (arg : FileArg) : Except PyError (Option HeaderDict × List String) :=
  match arg with
  | .badType => .error .typeError
  | .missingFile => .error .valueError
  | .existsWithBytes decoded =>
      match parseHeaderTry decoded with
      | .ok d => .ok (some d, [])
      | .error .unicodeDecodeError => .ok (none, [decodeWarnMsg])
      | .error .valueError => .ok (none, [emptyWarnMsg])
      | .error e => .error e

example : findTokens " 0N100:0 1F150:1 2B200.0/0" =
    [("0", "N100:0"), ("2", "B200.0/0")] := by decide

example : findTokens " 0N100:0  1F150:1  2B200.0/0" =
    [("0", "N100:0"), ("1", "F150:1"), ("2", "B200.0/0")] := by decide

example : findTokens " 0A  0B" = [("0", "A"), ("0", "B")] := by decide

example : dictOfTokens [("0", "A"), ("0", "B"), ("1", "C")] =
    [(.str "0", "B"), (.str "1", "C")] := by decide

/-- A parsed timestamp as produced by
`pd.to_datetime(..., format=r"%Y-%m-%d %H:%M:%S.%f")`: pandas stores
nanoseconds, but the `%f` directive only ever yields whole microseconds. -/
structure PyDatetime where
  year : Nat
  month : Nat
  day : Nat
  hour : Nat
  minute : Nat
  second : Nat
  microsecond : Nat
deriving DecidableEq, Repr

def digitVal (c : Char) : Nat := c.toNat - 48

/-- Value of a digit string, most significant first. -/
def digitsToNat (cs : List Char) : Nat :=
  cs.foldl (fun a c => a * 10 + digitVal c) 0

/-- Read exactly `k` digits, accumulating into `acc`. -/
def readNDigits : Nat → Nat → List Char → Option (Nat × List Char)
  | 0, acc, cs => some (acc, cs)
  | _ + 1, _, [] => none
  | k + 1, acc, c :: cs =>
      if isAsciiDigit c then readNDigits k (acc * 10 + digitVal c) cs else none

def expectChar (c : Char) : List Char → Option (List Char)
  | [] => none
  | x :: xs => if x = c then some xs else none

def isLeapYear (y : Nat) : Bool :=
  (y % 4 = 0 ∧ y % 100 ≠ 0) ∨ y % 400 = 0

def daysInMonth (y m : Nat) : Nat :=
  if m = 2 then (if isLeapYear y then 29 else 28)
  else if m = 4 ∨ m = 6 ∨ m = 9 ∨ m = 11 then 30
  else 31

/-- Strict parse of one string under the fixed format
`%Y-%m-%d %H:%M:%S.%f` as `pd.to_datetime` applies it (converter.py lines
73-75): four-digit year, two-digit month/day/hour/minute/second with literal
separators, then `%f` accepting one to six digits which are zero-padded **on
the right** to six, i.e. read as microseconds.  Field values must form a real
calendar date and time of day.  `none` models the `ValueError` pandas raises
for a non-matching string. -/
def parseDatetimeFixed (s : String) : Option PyDatetime :=
  match readNDigits 4 0 s.data with
  | none => none
  | some (y, r₁) =>
  match expectChar '-' r₁ with
  | none => none
  | some r₂ =>
  match readNDigits 2 0 r₂ with
  | none => none
  | some (mo, r₃) =>
  match expectChar '-' r₃ with
  | none => none
  | some r₄ =>
  match readNDigits 2 0 r₄ with
  | none => none
  | some (d, r₅) =>
  match expectChar ' ' r₅ with
  | none => none
  | some r₆ =>
  match readNDigits 2 0 r₆ with
  | none => none
  | some (h, r₇) =>
  match expectChar ':' r₇ with
  | none => none
  | some r₈ =>
  match readNDigits 2 0 r₈ with
  | none => none
  | some (mi, r₉) =>
  match expectChar ':' r₉ with
  | none => none
  | some r₁₀ =>
  match readNDigits 2 0 r₁₀ with
  | none => none
  | some (sec, r₁₁) =>
  match expectChar '.' r₁₁ with
  | none => none
  | some frac =>
      if frac.length = 0 ∨ 6 < frac.length ∨ ¬ frac.all isAsciiDigit then none
      else
        let us := digitsToNat frac * 10 ^ (6 - frac.length)
        if 1 ≤ mo ∧ mo ≤ 12 ∧ 1 ≤ d ∧ d ≤ daysInMonth y mo ∧
           h ≤ 23 ∧ mi ≤ 59 ∧ sec ≤ 59 then
          some ⟨y, mo, d, h, mi, sec, us⟩
        else none

/-- `str(pandas.Timestamp)`: ISO date, space, time, and the microseconds when
they are non-zero.  Only relevant to `.astype(str)` on an already-parsed
datetime column, which no claim exercises. -/
def pyDatetimeStr (t : PyDatetime) : String :=
  padLeftZeros 4 (Nat.repr t.year) ++ "-" ++ padLeftZeros 2 (Nat.repr t.month) ++ "-" ++
  padLeftZeros 2 (Nat.repr t.day) ++ " " ++ padLeftZeros 2 (Nat.repr t.hour) ++ ":" ++
  padLeftZeros 2 (Nat.repr t.minute) ++ ":" ++ padLeftZeros 2 (Nat.repr t.second) ++
  (if t.microsecond = 0 then "" else "." ++ padLeftZeros 6 (Nat.repr t.microsecond))

/-- A pandas column: homogeneously typed, either the strings the DBF decoder
produced or a parsed datetime series. -/
inductive Column where
  | strs (vals : List String)
  | dts (vals : List PyDatetime)
deriving DecidableEq, Repr

/-- A pandas `DataFrame`: an ordered association list of column name and
column values. -/
abbrev DataFrame := List (String × Column)

/-- `df.columns`. -/
def namesOf (df : DataFrame) : List String := df.map Prod.fst

/-- `.astype(str)` on a column. -/
def columnToStrs : Column → List String
  | .strs l => l
  | .dts l => l.map pyDatetimeStr

/-- `df[name].astype(str)` for a present column (the default `[]` is only
reached when `name` is absent, which every call site checks first). -/
def getColStrs (df : DataFrame) (name : String) : List String :=
  match List.lookup name df with
  | some col => columnToStrs col
  | none => []

def zipWith3 {α β γ δ : Type} (f : α → β → γ → δ) : List α → List β → List γ → List δ
  | a :: as, b :: bs, c :: cs => f a b c :: zipWith3 f as bs cs
  | _, _, _ => []

/-- `_parse_date_column` (converter.py lines 33-77): require the `Date`,
`Time` and `Millitm` columns to all be present (else `ValueError`, raised
before any row is looked at); left-pad each `Millitm` string to width 3 with
`f"{x_int:0>3}"`; concatenate `date ++ " " ++ time ++ "." ++ millis` per row;
parse each row under the fixed format, any non-conforming row raising
`ValueError` (pandas `to_datetime` with `errors="raise"`). -/
def _parse_date_column (df : DataFrame) : Except PyError (List PyDatetime) :=
  if ¬ ("Millitm" ∈ namesOf df ∧ "Date" ∈ namesOf df ∧ "Time" ∈ namesOf df) then
    .error .valueError
  else
    let milliseconds_str := (getColStrs df "Millitm").map (fun x_int => padLeftZeros 3 x_int)
    let datetime_str := zipWith3 (fun d t m => d ++ " " ++ t ++ "." ++ m)
      (getColStrs df "Date") (getColStrs df "Time") milliseconds_str
    match datetime_str.mapM parseDatetimeFixed with
    | some parsed => .ok parsed
    | none => .error .valueError

example : parseDatetimeFixed "2023-03-23 18:45:20.008" =
    some ⟨2023, 3, 23, 18, 45, 20, 8000⟩ := by decide

example : parseDatetimeFixed "2023-03-23 18:45:20.8" =
    some ⟨2023, 3, 23, 18, 45, 20, 800000⟩ := by decide

example :
    _parse_date_column
      [("Date", .strs ["2023-03-23"]), ("Time", .strs ["18:45:20"]),
       ("Millitm", .strs ["8"])] =
    .ok [⟨2023, 3, 23, 18, 45, 20, 8000⟩] := by decide

/-- The keyword arguments of `convert_file_to_pd_dataframe` apart from the
two file locators (converter.py lines 192-201), with their defaults. -/
structure ConvertConfig where
  keep_status_columns : Bool := false
  keep_marker_column : Bool := false
  missing_header_file_column_prefix : String := "Pen_"
  parsed_datetime_column_name : Option String := some "datetime"
  drop_original_datetime_column : Bool := false
  put_parsed_datetime_column_first : Bool := true
deriving DecidableEq, Repr

/-- How the sidecar header file is available to one invocation of
`convert_file_to_pd_dataframe` (converter.py lines 265-292): either no
locator was supplied and no same-stem `.IDX` file exists next to the DBF
file (`noSidecar`), or a sidecar file is reached — explicitly supplied, or
found by the same-stem probe — and behaves as the `FileArg` describes. -/
inductive HeaderSource where
  | noSidecar
  | sidecarFile (arg : FileArg)
deriving DecidableEq, Repr

/-- Warning logged at converter.py lines 320-323. -/
def noEffectWarnMsg : String :=
  "Args `drop_original_datetime_column` and/or `put_parsed_datetime_column_first` had no effect because `parsed_datetime_column_name` was None, indicating no parsed datetime column should be generated."

/-- The status columns: `[col for col in df.columns if (col[0:4] == "Sts_")]`
(converter.py line 256). -/
def statusColumns (df : DataFrame) : List String :=
  (namesOf df).filter (fun col => col.data.take 4 = "Sts_".data)

/-- First half of the pruning, converter.py lines 255-259: drop the status
columns unless kept (the labels all exist, so `df.drop` cannot raise). -/
def pruneStatusColumns (df : DataFrame) (keep_status_columns : Bool) : DataFrame :=
  if ¬ keep_status_columns ∧ (statusColumns df).length > 0 then
    df.filter (fun p => ¬ p.1 ∈ statusColumns df)
  else df

/-- Column pruning, converter.py lines 255-263: drop the status columns
unless kept, then drop `"Marker"` unless kept (guarded by a membership
test). -/
def pruneColumns (df : DataFrame) (keep_status_columns keep_marker_column : Bool) : DataFrame :=
  if ¬ keep_marker_column ∧ "Marker" ∈ namesOf (pruneStatusColumns df keep_status_columns) then
    (pruneStatusColumns df keep_status_columns).filter (fun p => ¬ p.1 = "Marker")
  else pruneStatusColumns df keep_status_columns

/-- Header-mapping resolution, converter.py lines 265-299: obtain the parsed
header dict (or `None`) from the sidecar situation, then — when it is `None`
or the empty dict — replace it by
`_make_placeholder_header_dict(n_status_columns, missing_header_file_column_prefix)`,
whose `ValueError`/`TypeError` would propagate.  Also returns the warnings
logged along the way. -/
def resolveHeaderDict (hs : HeaderSource) (n_status_columns : Nat) (prefixStr : String) :
    Except PyError (HeaderDict × List String) :=
  let step : Except PyError (Option HeaderDict × List String) :=
    match hs with
    | .noSidecar => .ok (none, [])
    | .sidecarFile arg => _parse_header_file arg
  match step with
  | .error e => .error e
  | .ok (header_dict, ws) =>
      match header_dict with
      | none =>
          (match _make_placeholder_header_dict (.intVal n_status_columns)
              (.strVal prefixStr) with
           | .error e => .error e
           | .ok d => .ok (d, ws))
      | some d =>
          if d.isEmpty then
            (match _make_placeholder_header_dict (.intVal n_status_columns)
                (.strVal prefixStr) with
             | .error e => .error e
             | .ok d' => .ok (d', ws))
          else .ok (d, ws)

/-- `df.rename(columns=header_dict)`: a column whose name occurs among the
string keys takes the mapped value, every other column keeps its name.  The
integer keys of a placeholder dict never equal a string column name. -/
def renameColumn (header_dict : HeaderDict) (c : String) : String :=
  match List.lookup (ColKey.str c) header_dict with
  | some v => v
  | none => c

def renameColumns (header_dict : HeaderDict) (df : DataFrame) : DataFrame :=
  df.map (fun p => (renameColumn header_dict p.1, p.2))

/-- `df[name] = vals`: overwrite an existing column in place, else append. -/
def setColumn (df : DataFrame) (name : String) (vals : Column) : DataFrame :=
  if name ∈ namesOf df then
    df.map (fun p => if p.1 = name then (p.1, vals) else p)
  else df ++ [(name, vals)]

/-- `df.pop(name)` followed by `df.insert(loc=0, column=name, value=...)`
(converter.py lines 313-315).  `df.pop` raises `KeyError` when the column is
absent — which is reachable: with `drop_original_datetime_column=True` and a
parsed-datetime column named `Date`, `Time` or `Millitm`, the drop at line
310 removes the just-assigned column, and the pop at line 314 fails. -/
def moveColumnToFront (df : DataFrame) (name : String) : Except PyError DataFrame :=
  match List.lookup name df with
  | some col => .ok ((name, col) :: df.filter (fun p => ¬ p.1 = name))
  | none => .error .keyError

/-- `convert_file_to_pd_dataframe` (converter.py lines 192-326).  The
locator handling and `Dbf5(...).to_dataframe()` call (lines 242-253) are the
I/O boundary: `df` is the frame the external DBF decoder returned and `hs`
the sidecar situation.  Returns the normalized frame together with the
warnings logged, or the propagated fatal error. -/
def convert_file_to_pd_dataframe (df : DataFrame) (hs : HeaderSource) (cfg : ConvertConfig) :
    Except PyError (DataFrame × List String) :=
  let n_status_columns := (statusColumns df).length
  let df₂ := pruneColumns df cfg.keep_status_columns cfg.keep_marker_column
  match resolveHeaderDict hs n_status_columns cfg.missing_header_file_column_prefix with
  | .error e => .error e
  | .ok (header_dict, ws₁) =>
      let df₃ := renameColumns header_dict df₂
      match cfg.parsed_datetime_column_name with
      | some name =>
          (match _parse_date_column df₃ with
           | .error e => .error e
           | .ok parsed =>
               let df₄ := setColumn df₃ name (.dts parsed)
               let df₅ :=
                 if cfg.drop_original_datetime_column then
                   df₄.filter (fun p => ¬ p.1 ∈ ["Date", "Time", "Millitm"])
                 else df₄
               if cfg.put_parsed_datetime_column_first then
                 match moveColumnToFront df₅ name with
                 | .error e => .error e
                 | .ok df₆ => .ok (df₆, ws₁)
               else .ok (df₅, ws₁))
      | none =>
          if cfg.drop_original_datetime_column ∨ cfg.put_parsed_datetime_column_first then
            .ok (df₃, ws₁ ++ [noEffectWarnMsg])
          else .ok (df₃, ws₁)

example :
    convert_file_to_pd_dataframe
      [("Date", .strs ["2023-03-23"]), ("Time", .strs ["18:45:20"]),
       ("Millitm", .strs ["8"]), ("Sts_A", .strs ["0"]), ("Marker", .strs ["x"])]
      .noSidecar {} =
    .ok ([("datetime", .dts [⟨2023, 3, 23, 18, 45, 20, 8000⟩]),
          ("Date", .strs ["2023-03-23"]), ("Time", .strs ["18:45:20"]),
          ("Millitm", .strs ["8"])], []) := by decide

example :
    convert_file_to_pd_dataframe
      [("Date", .strs ["2023-03-23"]), ("Time", .strs ["18:45:20"]),
       ("Millitm", .strs ["8"])]
      .noSidecar {} = .error .valueError := by decide

example :
    convert_file_to_pd_dataframe
      [("Sts_A", .strs ["9"]), ("Date", .strs ["2023-03-23"]),
       ("Time", .strs ["18:45:20"]), ("Millitm", .strs ["8"])]
      .noSidecar
      { parsed_datetime_column_name := some "Date",
        drop_original_datetime_column := true } = .error .keyError := by decide

/-! ## Claims about `_make_placeholder_header_dict` (C4, C5) -/

/-- C4: `_make_placeholder_header_dict` fails with an `InvalidArgument`-class
error when the count is less than 1 (concretely a `ValueError`) or when the
prefix is not a string (concretely a `TypeError`), and fails with a
`TypeError`-class error when the count is not an integer. -/
theorem C4_placeholder_namer_errors :
    (∀ (n : Int) (p : PyVal), n < 1 →
      _make_placeholder_header_dict (.intVal n) p = .error .valueError ∧
        specInvalidArgument .valueError) ∧
    (∀ (n : Int) (p : PyVal), 1 ≤ n → p.isStr = false →
      _make_placeholder_header_dict (.intVal n) p = .error .typeError ∧
        specInvalidArgument .typeError) ∧
    (∀ (v p : PyVal), v.isInt = false →
      _make_placeholder_header_dict v p = .error .typeError) := by
  refine ⟨?_, ?_, ?_⟩
  · intro n p hn
    exact ⟨by simp [_make_placeholder_header_dict, hn], Or.inr rfl⟩
  · intro n p hn hp
    refine ⟨?_, Or.inl rfl⟩
    cases p with
    | strVal s => simp [PyVal.isStr] at hp
    | intVal m => simp [_make_placeholder_header_dict, Int.not_lt.mpr hn]
    | floatVal => simp [_make_placeholder_header_dict, Int.not_lt.mpr hn]
  · intro v p hv
    cases v with
    | intVal n => simp [PyVal.isInt] at hv
    | strVal s => simp [_make_placeholder_header_dict]
    | floatVal => simp [_make_placeholder_header_dict]

/-- Witness for C4 at concrete inputs: count `0` (a `ValueError`,
`InvalidArgument` class), integer count `1` with a float prefix (a
`TypeError`, `InvalidArgument` class), and a string count (a `TypeError`). -/
theorem C4_placeholder_namer_errors_witness :
    (_make_placeholder_header_dict (.intVal 0) (.strVal "Pen_") = .error .valueError ∧
      specInvalidArgument .valueError) ∧
    (_make_placeholder_header_dict (.intVal 1) .floatVal = .error .typeError ∧
      specInvalidArgument .typeError) ∧
    _make_placeholder_header_dict (.strVal "three") (.strVal "Pen_") = .error .typeError :=
  ⟨C4_placeholder_namer_errors.1 0 (.strVal "Pen_") (by decide),
   C4_placeholder_namer_errors.2.1 1 .floatVal (by decide) (by decide),
   C4_placeholder_namer_errors.2.2 (.strVal "three") (.strVal "Pen_") (by decide)⟩

/-- C5: for every integer count `n >= 1` and string prefix,
`_make_placeholder_header_dict` returns a mapping with exactly `n` entries,
keyed `0..n-1` in order, whose value at index `i` is the prefix concatenated
with the decimal representation of `i` left-zero-padded to at least 2
digits; in particular count 3 and prefix `"Pen_"` give
`{0: "Pen_00", 1: "Pen_01", 2: "Pen_02"}`. -/
theorem C5_placeholder_namer_output :
    (∀ (n : Int) (p : String), 1 ≤ n →
      ∃ d, _make_placeholder_header_dict (.intVal n) (.strVal p) = .ok d ∧
        d.length = n.toNat ∧
        d.map Prod.fst = (List.range n.toNat).map ColKey.int ∧
        (∀ i, i < n.toNat →
          List.lookup (ColKey.int i) d = some (p ++ padLeftZeros 2 (Nat.repr i)) ∧
          2 ≤ (padLeftZeros 2 (Nat.repr i)).length)) ∧
    _make_placeholder_header_dict (.intVal 3) (.strVal "Pen_") =
      .ok [(.int 0, "Pen_00"), (.int 1, "Pen_01"), (.int 2, "Pen_02")] := by
  constructor
  · intro n p hn
    refine ⟨placeholderRange n.toNat p, ?_, placeholderRange_length _ _,
      placeholderRange_keys _ _, ?_⟩
    · simp [_make_placeholder_header_dict, Int.not_lt.mpr hn]
    · intro i hi
      refine ⟨placeholderRange_lookup n.toNat p i hi, ?_⟩
      show 2 ≤ (List.replicate (2 - (Nat.repr i).data.length) '0' ++ (Nat.repr i).data).length
      rw [List.length_append, List.length_replicate]
      omega
  · decide

/-- Witness for C5 at count 3, prefix `"Pen_"`. -/
theorem C5_placeholder_namer_output_witness :
    (1 : Int) ≤ 3 ∧
    ∃ d, _make_placeholder_header_dict (.intVal 3) (.strVal "Pen_") = .ok d ∧
      d.length = (3 : Int).toNat ∧
      d.map Prod.fst = (List.range (3 : Int).toNat).map ColKey.int ∧
      (∀ i, i < (3 : Int).toNat →
        List.lookup (ColKey.int i) d = some ("Pen_" ++ padLeftZeros 2 (Nat.repr i)) ∧
        2 ≤ (padLeftZeros 2 (Nat.repr i)).length) :=
  ⟨by decide, C5_placeholder_namer_output.1 3 "Pen_" (by decide)⟩

/-! ## Claims about `_parse_header_file` (C6, C10, C3) -/

theorem parseHeaderTry_cases (decoded : Option String) :
    parseHeaderTry decoded = .error .unicodeDecodeError ∨
    parseHeaderTry decoded = .error .valueError ∨
    ∃ d, parseHeaderTry decoded = .ok d := by
  cases decoded with
  | none => exact Or.inl rfl
  | some s =>
      by_cases h₀ : s.length = 0
      · exact Or.inr (Or.inl (by simp [parseHeaderTry, h₀]))
      · by_cases h₁ : (findTokens s).length = 0
        · exact Or.inr (Or.inl (by simp [parseHeaderTry, h₀, h₁]))
        · exact Or.inr (Or.inr ⟨dictOfTokens (findTokens s),
            by simp [parseHeaderTry, h₀, h₁]⟩)

/-- C6: for an existing regular sidecar file, `_parse_header_file` never
raises: whatever the decoded content, it returns (conjunct 1); and in the
three degraded situations — decode failure, zero-length decoded text, zero
tokens found — it returns the absence signal `None` together with a logged
warning (conjuncts 2-4). -/
theorem C6_header_decoder_never_raises :
    (∀ decoded : Option String,
      ∃ r, _parse_header_file (.existsWithBytes decoded) = .ok r) ∧
    _parse_header_file (.existsWithBytes none) = .ok (none, [decodeWarnMsg]) ∧
    (∀ s : String, s.length = 0 →
      _parse_header_file (.existsWithBytes (some s)) = .ok (none, [emptyWarnMsg])) ∧
    (∀ s : String, findTokens s = [] →
      _parse_header_file (.existsWithBytes (some s)) = .ok (none, [emptyWarnMsg])) := by
  refine ⟨?_, rfl, ?_, ?_⟩
  · intro decoded
    rcases parseHeaderTry_cases decoded with h | h | ⟨d, h⟩
    · exact ⟨(none, [decodeWarnMsg]), by simp [_parse_header_file, h]⟩
    · exact ⟨(none, [emptyWarnMsg]), by simp [_parse_header_file, h]⟩
    · exact ⟨(some d, []), by simp [_parse_header_file, h]⟩
  · intro s h₀
    simp [_parse_header_file, parseHeaderTry, h₀]
  · intro s htok
    by_cases h₀ : s.length = 0
    · simp [_parse_header_file, parseHeaderTry, h₀]
    · simp [_parse_header_file, parseHeaderTry, h₀, htok]

/-- Witness for C6: a decode failure, an empty decoded text, and a non-empty
decoded text with no token in it. -/
theorem C6_header_decoder_never_raises_witness :
    (∃ r, _parse_header_file (.existsWithBytes (some "abc")) = .ok r) ∧
    _parse_header_file (.existsWithBytes none) = .ok (none, [decodeWarnMsg]) ∧
    _parse_header_file (.existsWithBytes (some "")) = .ok (none, [emptyWarnMsg]) ∧
    _parse_header_file (.existsWithBytes (some "abc")) = .ok (none, [emptyWarnMsg]) :=
  ⟨C6_header_decoder_never_raises.1 (some "abc"),
   C6_header_decoder_never_raises.2.1,
   C6_header_decoder_never_raises.2.2.1 "" (by decide),
   C6_header_decoder_never_raises.2.2.2 "abc" (by decide)⟩

theorem dictInsert_ne_nil (d : HeaderDict) (k : ColKey) (v : String) :
    dictInsert d k v ≠ [] := by
  unfold dictInsert
  split
  · cases d with
    | nil => simp_all [dictInsert]
    | cons hd tl => simp
  · simp

theorem dictOfTokens_foldl_ne_nil (ts : List (String × String)) :
    ∀ d : HeaderDict, d ≠ [] →
      ts.foldl (fun d kv => dictInsert d (.str kv.1) kv.2) d ≠ [] := by
  induction ts with
  | nil => intro d hd; simpa using hd
  | cons t ts ih =>
      intro d hd
      simpa using ih (dictInsert d (.str t.1) t.2) (dictInsert_ne_nil d _ _)

theorem dictOfTokens_ne_nil (ts : List (String × String)) (h : ts ≠ []) :
    dictOfTokens ts ≠ [] := by
  cases ts with
  | nil => exact absurd rfl h
  | cons t ts =>
      unfold dictOfTokens
      simpa using dictOfTokens_foldl_ne_nil ts (dictInsert [] (.str t.1) t.2)
        (dictInsert_ne_nil [] _ _)

/-- C10: `_parse_header_file` never returns a structurally empty mapping —
a successful parse always has at least one entry (conjunct 1) — and
consequently the orchestrator's `header_dict == {}` fallback test in
`resolveHeaderDict` can never fire on a mapping that came out of
`_parse_header_file`: the parsed dict is passed through unchanged
(conjunct 2). -/
theorem C10_no_empty_mapping :
    (∀ (arg : FileArg) (d : HeaderDict) (ws : List String),
      _parse_header_file arg = .ok (some d, ws) → d ≠ []) ∧
    (∀ (arg : FileArg) (d : HeaderDict) (ws : List String) (n : Nat) (p : String),
      _parse_header_file arg = .ok (some d, ws) →
      resolveHeaderDict (.sidecarFile arg) n p = .ok (d, ws)) := by
  have key : ∀ (arg : FileArg) (d : HeaderDict) (ws : List String),
      _parse_header_file arg = .ok (some d, ws) → d ≠ [] := by
    intro arg d ws h
    cases arg with
    | badType => simp [_parse_header_file] at h
    | missingFile => simp [_parse_header_file] at h
    | existsWithBytes decoded =>
        cases decoded with
        | none => simp [_parse_header_file, parseHeaderTry] at h
        | some s =>
            by_cases h₀ : s.length = 0
            · simp [_parse_header_file, parseHeaderTry, h₀] at h
            · by_cases h₁ : (findTokens s).length = 0
              · simp [_parse_header_file, parseHeaderTry, h₀, h₁] at h
              · have : d = dictOfTokens (findTokens s) := by
                  simp [_parse_header_file, parseHeaderTry, h₀, h₁] at h
                  exact h.1.symm
                rw [this]
                exact dictOfTokens_ne_nil _ (by simpa using h₁)
  refine ⟨key, ?_⟩
  intro arg d ws n p h
  have hne := key arg d ws h
  simp [resolveHeaderDict, h, List.isEmpty_iff, hne]

/-- Witness for C10 on a concrete sidecar content with one token. -/
theorem C10_no_empty_mapping_witness :
    [((ColKey.str "0" : ColKey), "N100:0")] ≠ ([] : HeaderDict) ∧
    resolveHeaderDict (.sidecarFile (.existsWithBytes (some " 0N100:0"))) 0 "Pen_" =
      .ok ([(.str "0", "N100:0")], []) :=
  ⟨C10_no_empty_mapping.1 (.existsWithBytes (some " 0N100:0"))
      [(.str "0", "N100:0")] [] (by decide),
   C10_no_empty_mapping.2 (.existsWithBytes (some " 0N100:0"))
      [(.str "0", "N100:0")] [] 0 "Pen_" (by decide)⟩

/-- C3 (evaluation at the failing input): on the decoded stream
`" 0N100:0 1F150:1 2B200.0/0"` the findall pattern's trailing `\s?` consumes
the single space separating consecutive tokens, so the scan resumes inside
`1F150:1` and that token is skipped: the produced mapping is
`{"0": "N100:0", "2": "B200.0/0"}` — it has no entry for index `"1"`,
against the claimed `{0: "N100:0", 1: "F150:1", 2: "B200.0/0"}`.  (With
two-space separators all three tokens are found, confirming the mechanism.) -/
theorem C3_token_skipped_eval :
    _parse_header_file (.existsWithBytes (some " 0N100:0 1F150:1 2B200.0/0")) =
      .ok (some [(.str "0", "N100:0"), (.str "2", "B200.0/0")], []) ∧
    List.lookup (ColKey.str "1")
      [((ColKey.str "0" : ColKey), "N100:0"), (.str "2", "B200.0/0")] = none ∧
    _parse_header_file (.existsWithBytes (some " 0N100:0  1F150:1  2B200.0/0")) =
      .ok (some [(.str "0", "N100:0"), (.str "1", "F150:1"), (.str "2", "B200.0/0")], []) := by
  decide

/-! ## Claims about `_parse_date_column` (C8, C1) -/

/-- C8: `_parse_date_column` fails with `ValueError` whenever any of
`Date`, `Time`, `Millitm` is absent from the column set — for every frame,
i.e. before and regardless of any row contents (conjunct 1) — and a parsed
timestamp column is only ever produced when all three fields are present
(conjunct 2). -/
theorem C8_missing_field_check :
    ∀ df : DataFrame,
      (¬ ("Millitm" ∈ namesOf df ∧ "Date" ∈ namesOf df ∧ "Time" ∈ namesOf df) →
        _parse_date_column df = .error .valueError) ∧
      (∀ parsed, _parse_date_column df = .ok parsed →
        "Millitm" ∈ namesOf df ∧ "Date" ∈ namesOf df ∧ "Time" ∈ namesOf df) := by
  intro df
  constructor
  · intro h
    simp [_parse_date_column, h]
  · intro parsed hok
    by_contra h
    simp [_parse_date_column, h] at hok

/-- Witness for C8: a frame with rows but no `Date` column is rejected, and
a complete frame parses so all three fields were present. -/
theorem C8_missing_field_check_witness :
    (¬ ("Millitm" ∈ namesOf [("Time", Column.strs ["18:45:20"]), ("Millitm", Column.strs ["8"])] ∧
        "Date" ∈ namesOf [("Time", Column.strs ["18:45:20"]), ("Millitm", Column.strs ["8"])] ∧
        "Time" ∈ namesOf [("Time", Column.strs ["18:45:20"]), ("Millitm", Column.strs ["8"])]) →
      _parse_date_column [("Time", Column.strs ["18:45:20"]), ("Millitm", Column.strs ["8"])] =
        .error .valueError) ∧
    _parse_date_column [("Time", Column.strs ["18:45:20"]), ("Millitm", Column.strs ["8"])] =
      .error .valueError :=
  ⟨(C8_missing_field_check [("Time", Column.strs ["18:45:20"]), ("Millitm", Column.strs ["8"])]).1,
   (C8_missing_field_check [("Time", Column.strs ["18:45:20"]), ("Millitm", Column.strs ["8"])]).1
     (by decide)⟩

theorem digitsToNat_shift (cs : List Char) :
    ∀ a : Nat, List.foldl (fun a c => a * 10 + digitVal c) a cs =
      a * 10 ^ cs.length + digitsToNat cs := by
  induction cs with
  | nil => intro a; simp [digitsToNat]
  | cons c cs ih =>
      intro a
      have h₁ := ih (a * 10 + digitVal c)
      have h₂ := ih (digitVal c)
      simp only [List.foldl_cons, List.length_cons]
      rw [h₁]
      have : digitsToNat (c :: cs) = digitVal c * 10 ^ cs.length + digitsToNat cs := by
        show List.foldl (fun a c => a * 10 + digitVal c) (0 * 10 + digitVal c) cs = _
        rw [show 0 * 10 + digitVal c = digitVal c by omega, h₂]
      rw [this]
      ring

theorem digitsToNat_lt (cs : List Char) (h : cs.all isAsciiDigit) :
    digitsToNat cs < 10 ^ cs.length := by
  induction cs with
  | nil => simp [digitsToNat]
  | cons c cs ih =>
      simp only [List.all_cons, Bool.and_eq_true] at h
      have hc : digitVal c ≤ 9 := by
        have := h.1
        simp [isAsciiDigit] at this
        simp [digitVal]
        omega
      have hrec := ih h.2
      have : digitsToNat (c :: cs) = digitVal c * 10 ^ cs.length + digitsToNat cs := by
        show List.foldl (fun a c => a * 10 + digitVal c) (0 * 10 + digitVal c) cs = _
        rw [show 0 * 10 + digitVal c = digitVal c by omega, digitsToNat_shift]
      rw [this]
      simp only [List.length_cons, pow_succ]
      nlinarith

theorem digitsToNat_zeros_prefix (k : Nat) (cs : List Char) :
    digitsToNat (List.replicate k '0' ++ cs) = digitsToNat cs := by
  induction k with
  | zero => simp
  | succ m ih =>
      rw [List.replicate_succ, List.cons_append]
      show digitsToNat (List.replicate m '0' ++ cs) = _
      exact ih

theorem mapM_singleton {α β : Type} (f : α → Option β) (x : α) :
    [x].mapM f = (f x).map (fun y => [y]) := by
  cases h : f x <;> simp [List.mapM, List.mapM.loop, h]

/-- The characters of `"2023-03-23" ++ " " ++ "18:45:20" ++ "."`, the
concrete date/time prefix of the claim C1 example row. -/
def dtPrefixChars : List Char :=
  ['2','0','2','3','-','0','3','-','2','3',' ','1','8',':','4','5',':','2','0','.']

/-- Parsing the example date/time prefix followed by an arbitrary fractional
suffix: the fixed-format parser consumes the concrete prefix and is left
with the `%f` rule on the suffix. -/
theorem parse_dt_head (frac : List Char) :
    parseDatetimeFixed ⟨dtPrefixChars ++ frac⟩ =
      (if frac.length = 0 ∨ 6 < frac.length ∨ ¬ frac.all isAsciiDigit then none
       else some ⟨2023, 3, 23, 18, 45, 20, digitsToNat frac * 10 ^ (6 - frac.length)⟩) := rfl

/-- C1: for every sub-second field that is a decimal string of 1-3 digits
(i.e. a milliseconds value in `[0, 999]`), `_parse_date_column` left-pads it
to exactly 3 characters, concatenates `date ++ " " ++ time ++ "." ++ millis`
and parses under the fixed format, yielding a timestamp whose microsecond
component is `1000 *` the decimal value of the field — so `"7"` means 7 ms,
not 700 ms, and `date="2023-03-23"`, `time="18:45:20"`, `millis="8"`
reconstructs to `2023-03-23T18:45:20.008`. -/
theorem C1_millisecond_padding : ∀ (s : String),
    s.data ≠ [] → s.data.length ≤ 3 → s.data.all isAsciiDigit →
    (padLeftZeros 3 s).length = 3 ∧
    digitsToNat s.data ≤ 999 ∧
    _parse_date_column
      [("Date", .strs ["2023-03-23"]), ("Time", .strs ["18:45:20"]),
       ("Millitm", .strs [s])] =
      .ok [⟨2023, 3, 23, 18, 45, 20, 1000 * digitsToNat s.data⟩] := by
  intro s hne hlen hdig
  have hpos : 0 < s.data.length := List.length_pos.mpr hne
  refine ⟨?_, ?_, ?_⟩
  · show (List.replicate (3 - s.data.length) '0' ++ s.data).length = 3
    rw [List.length_append, List.length_replicate]
    omega
  · have h₁ := digitsToNat_lt s.data hdig
    have h₂ : 10 ^ s.data.length ≤ 10 ^ 3 := Nat.pow_le_pow_right (by omega) hlen
    omega
  · have hparse : parseDatetimeFixed
        ("2023-03-23" ++ " " ++ "18:45:20" ++ "." ++ padLeftZeros 3 s) =
        some ⟨2023, 3, 23, 18, 45, 20, 1000 * digitsToNat s.data⟩ := by
      rw [show ("2023-03-23" ++ " " ++ "18:45:20" ++ "." ++ padLeftZeros 3 s) =
          (⟨dtPrefixChars ++ (padLeftZeros 3 s).data⟩ : String) from rfl]
      rw [parse_dt_head]
      have hfraclen : (padLeftZeros 3 s).data.length = 3 := by
        show (List.replicate (3 - s.data.length) '0' ++ s.data).length = 3
        rw [List.length_append, List.length_replicate]
        omega
      have hfracall : (padLeftZeros 3 s).data.all isAsciiDigit = true := by
        show (List.replicate (3 - s.data.length) '0' ++ s.data).all isAsciiDigit = true
        rw [List.all_append]
        simp only [Bool.and_eq_true]
        refine ⟨?_, hdig⟩
        rw [List.all_eq_true]
        intro c hc
        rw [List.eq_of_mem_replicate hc]
        decide
      rw [if_neg]
      · have : digitsToNat (padLeftZeros 3 s).data = digitsToNat s.data := by
          show digitsToNat (List.replicate (3 - s.data.length) '0' ++ s.data) = _
          exact digitsToNat_zeros_prefix _ _
        rw [hfraclen, this]
        norm_num [Nat.mul_comm]
      · rw [hfraclen, hfracall]
        simp
    have hstep : _parse_date_column
        [("Date", .strs ["2023-03-23"]), ("Time", .strs ["18:45:20"]),
         ("Millitm", .strs [s])] =
        match ["2023-03-23" ++ " " ++ "18:45:20" ++ "." ++ padLeftZeros 3 s].mapM
            parseDatetimeFixed with
        | some parsed => .ok parsed
        | none => .error .valueError := rfl
    rw [hstep, mapM_singleton, hparse]
    rfl

/-- Witness for C1 at the claim's concrete inputs: millisecond fields `"8"`
(the end-to-end example, `1000 * 8 = 8000` microseconds past the second) and
`"7"` (7 ms, not 700 ms). -/
theorem C1_millisecond_padding_witness :
    ("8" : String).data ≠ [] ∧ ("8" : String).data.length ≤ 3 ∧
    ("8" : String).data.all isAsciiDigit = true ∧
    ((padLeftZeros 3 "8").length = 3 ∧
      digitsToNat ("8" : String).data ≤ 999 ∧
      _parse_date_column
        [("Date", .strs ["2023-03-23"]), ("Time", .strs ["18:45:20"]),
         ("Millitm", .strs ["8"])] =
        .ok [⟨2023, 3, 23, 18, 45, 20, 1000 * digitsToNat ("8" : String).data⟩]) ∧
    1000 * digitsToNat ("8" : String).data = 8000 ∧
    (_parse_date_column
        [("Date", .strs ["2023-03-23"]), ("Time", .strs ["18:45:20"]),
         ("Millitm", .strs ["7"])] =
        .ok [⟨2023, 3, 23, 18, 45, 20, 1000 * digitsToNat ("7" : String).data⟩]) ∧
    1000 * digitsToNat ("7" : String).data = 7000 :=
  ⟨by decide, by decide, by decide,
   C1_millisecond_padding "8" (by decide) (by decide) (by decide),
   by decide,
   (C1_millisecond_padding "7" (by decide) (by decide) (by decide)).2.2,
   by decide⟩

/-! ## Claims about `convert_file_to_pd_dataframe` (C2, C9, C7) -/

/-- The sidecar situations the claim C2 quantifies over: no sidecar supplied
and none found adjacent, or the decoder signalled absence (decode failure,
empty decoded text, or zero tokens — the cases in which `_parse_header_file`
returns `None`). -/
def headerAbsent (hs : HeaderSource) : Prop :=
  hs = .noSidecar ∨
  ∃ arg ws, hs = .sidecarFile arg ∧ _parse_header_file arg = .ok (none, ws)

theorem make_placeholder_nat (n : Nat) (hn : 1 ≤ n) (p : String) :
    _make_placeholder_header_dict (.intVal n) (.strVal p) = .ok (placeholderRange n p) := by
  have h1 : ¬ ((n : Int) < 1) := by exact_mod_cast Nat.not_lt.mpr hn
  simp [_make_placeholder_header_dict, h1]

theorem resolve_absent (hs : HeaderSource) (n : Nat) (p : String)
    (habs : headerAbsent hs) (hn : 1 ≤ n) :
    ∃ ws, resolveHeaderDict hs n p = .ok (placeholderRange n p, ws) := by
  rcases habs with h | ⟨arg, ws, h, hparse⟩
  · subst h
    exact ⟨[], by simp [resolveHeaderDict, make_placeholder_nat n hn p]⟩
  · subst h
    exact ⟨ws, by simp [resolveHeaderDict, hparse, make_placeholder_nat n hn p]⟩

/-- C2 as stated is false: with no adjacent sidecar and **zero** status
columns detected, the placeholder synthesis receives count 0 and its
`n_columns < 1` check raises `ValueError`, so the conversion aborts even
though nothing but the sidecar was missing. -/
theorem C2_counterexample :
    convert_file_to_pd_dataframe
      [("Date", .strs ["2023-03-23"]), ("Time", .strs ["18:45:20"]),
       ("Millitm", .strs ["8"])]
      .noSidecar {} = .error .valueError ∧
    headerAbsent .noSidecar ∧
    (statusColumns [("Date", Column.strs ["2023-03-23"]), ("Time", Column.strs ["18:45:20"]),
       ("Millitm", Column.strs ["8"])]).length = 0 :=
  ⟨by decide, Or.inl rfl, by decide⟩

theorem self_mem_namesOf_setColumn (df : DataFrame) (name : String) (vals : Column) :
    name ∈ namesOf (setColumn df name vals) := by
  unfold setColumn
  split
  case isTrue h =>
      obtain ⟨p, hp, rfl⟩ := List.mem_map.mp h
      refine List.mem_map.mpr
        ⟨if p.1 = p.1 then (p.1, vals) else p, List.mem_map.mpr ⟨p, hp, rfl⟩, ?_⟩
      split <;> rfl
  case isFalse h =>
      unfold namesOf
      rw [List.map_append, List.mem_append]
      right
      simp

theorem mem_namesOf_filter_keep (df : DataFrame) (q : String → Bool) (c : String)
    (h : c ∈ namesOf df) (hq : q c = true) :
    c ∈ namesOf (df.filter (fun p => q p.1)) := by
  obtain ⟨p, hp, rfl⟩ := List.mem_map.mp h
  exact List.mem_map.mpr ⟨p, List.mem_filter.mpr ⟨hp, hq⟩, rfl⟩

theorem lookup_isSome_of_mem_namesOf (df : DataFrame) (c : String)
    (h : c ∈ namesOf df) : ∃ col, List.lookup c df = some col := by
  induction df with
  | nil => simp [namesOf] at h
  | cons p df ih =>
      by_cases hc : c = p.1
      · subst hc
        exact ⟨p.2, by simp [List.lookup]⟩
      · have hcm : c ∈ namesOf df := by
          unfold namesOf at h
          rw [List.map_cons, List.mem_cons] at h
          rcases h with h | h
          · exact absurd h hc
          · exact h
        obtain ⟨col, hcol⟩ := ih hcm
        cases hb : c == p.1 with
        | true => exact absurd (eq_of_beq hb) hc
        | false => exact ⟨col, by simp [List.lookup, hb, hcol]⟩

/-- C2 (amended): for every invocation in which the sidecar is absent or
malformed, **provided at least one status column was detected** and the
timestamp step does not fail for its own reasons (it is disabled; or row
parsing succeeds and the configuration does not both drop the original
fields and move a timestamp column itself named `Date`, `Time` or `Millitm`
— in that combination `df.pop` raises `KeyError` because the drop removed
the just-assigned column), the pipeline raises no error from the sidecar's
absence: the resolved header mapping is exactly the placeholder mapping
sized to the count of status columns detected before pruning with the
configured prefix, and a normalized table is returned.  With zero status
columns the code instead aborts (see the counterexample). -/
theorem C2_amended :
    ∀ (df : DataFrame) (hs : HeaderSource) (cfg : ConvertConfig),
      headerAbsent hs →
      1 ≤ (statusColumns df).length →
      (cfg.parsed_datetime_column_name = none ∨
        ((∃ parsed, _parse_date_column
            (renameColumns
              (placeholderRange (statusColumns df).length cfg.missing_header_file_column_prefix)
              (pruneColumns df cfg.keep_status_columns cfg.keep_marker_column)) = .ok parsed) ∧
          (∀ nm, cfg.parsed_datetime_column_name = some nm →
            cfg.drop_original_datetime_column = true →
            cfg.put_parsed_datetime_column_first = true →
            ¬ nm ∈ ["Date", "Time", "Millitm"]))) →
      (∃ ws, resolveHeaderDict hs (statusColumns df).length
          cfg.missing_header_file_column_prefix =
          .ok (placeholderRange (statusColumns df).length
            cfg.missing_header_file_column_prefix, ws)) ∧
      ∃ out ws, convert_file_to_pd_dataframe df hs cfg = .ok (out, ws) := by
  intro df hs cfg habs hn hdt
  obtain ⟨ws, hres⟩ := resolve_absent hs (statusColumns df).length
    cfg.missing_header_file_column_prefix habs hn
  refine ⟨⟨ws, hres⟩, ?_⟩
  unfold convert_file_to_pd_dataframe
  simp only [hres]
  cases hname : cfg.parsed_datetime_column_name with
  | none =>
      by_cases hw : cfg.drop_original_datetime_column = true ∨
          cfg.put_parsed_datetime_column_first = true
      · exact ⟨_, _, by rw [if_pos hw]⟩
      · exact ⟨_, _, by rw [if_neg hw]⟩
  | some name =>
      rcases hdt with h | ⟨⟨parsed, hp⟩, hsafe⟩
      · rw [hname] at h; cases h
      · rw [hp]
        show ∃ out ws',
            (if cfg.put_parsed_datetime_column_first = true then
              (match moveColumnToFront
                  (if cfg.drop_original_datetime_column = true then
                    (setColumn
                      (renameColumns
                        (placeholderRange (statusColumns df).length
                          cfg.missing_header_file_column_prefix)
                        (pruneColumns df cfg.keep_status_columns cfg.keep_marker_column))
                      name (Column.dts parsed)).filter
                        (fun p => ¬ p.1 ∈ ["Date", "Time", "Millitm"])
                  else
                    setColumn
                      (renameColumns
                        (placeholderRange (statusColumns df).length
                          cfg.missing_header_file_column_prefix)
                        (pruneColumns df cfg.keep_status_columns cfg.keep_marker_column))
                      name (Column.dts parsed))
                  name with
               | Except.error e => Except.error e
               | Except.ok df₆ => Except.ok (df₆, ws))
            else
              Except.ok
                (if cfg.drop_original_datetime_column = true then
                  (setColumn
                    (renameColumns
                      (placeholderRange (statusColumns df).length
                        cfg.missing_header_file_column_prefix)
                      (pruneColumns df cfg.keep_status_columns cfg.keep_marker_column))
                    name (Column.dts parsed)).filter
                      (fun p => ¬ p.1 ∈ ["Date", "Time", "Millitm"])
                else
                  setColumn
                    (renameColumns
                      (placeholderRange (statusColumns df).length
                        cfg.missing_header_file_column_prefix)
                      (pruneColumns df cfg.keep_status_columns cfg.keep_marker_column))
                    name (Column.dts parsed),
                 ws)) = Except.ok (out, ws')
        by_cases hput : cfg.put_parsed_datetime_column_first = true
        · rw [if_pos hput]
          by_cases hdrop : cfg.drop_original_datetime_column = true
          · rw [if_pos hdrop]
            have h₁ := self_mem_namesOf_setColumn
              (renameColumns
                (placeholderRange (statusColumns df).length
                  cfg.missing_header_file_column_prefix)
                (pruneColumns df cfg.keep_status_columns cfg.keep_marker_column))
              name (Column.dts parsed)
            have h₂ : ¬ name ∈ ["Date", "Time", "Millitm"] :=
              hsafe name hname hdrop hput
            have h₃ := mem_namesOf_filter_keep
              (setColumn
                (renameColumns
                  (placeholderRange (statusColumns df).length
                    cfg.missing_header_file_column_prefix)
                  (pruneColumns df cfg.keep_status_columns cfg.keep_marker_column))
                name (Column.dts parsed))
              (fun x => decide (¬ x ∈ ["Date", "Time", "Millitm"])) name h₁
              (decide_eq_true h₂)
            obtain ⟨col, hcol⟩ := lookup_isSome_of_mem_namesOf _ name h₃
            unfold moveColumnToFront
            rw [hcol]
            exact ⟨_, _, rfl⟩
          · rw [if_neg hdrop]
            have h₁ := self_mem_namesOf_setColumn
              (renameColumns
                (placeholderRange (statusColumns df).length
                  cfg.missing_header_file_column_prefix)
                (pruneColumns df cfg.keep_status_columns cfg.keep_marker_column))
              name (Column.dts parsed)
            obtain ⟨col, hcol⟩ := lookup_isSome_of_mem_namesOf _ name h₁
            unfold moveColumnToFront
            rw [hcol]
            exact ⟨_, _, rfl⟩
        · rw [if_neg hput]
          exact ⟨_, _, rfl⟩

/-- Witness for the amended C2: a malformed sidecar (bytes that fail to
decode) together with one status column; timestamp generation disabled to
isolate the sidecar concern. -/
theorem C2_amended_witness :
    headerAbsent (.sidecarFile (.existsWithBytes none)) ∧
    1 ≤ (statusColumns [("Sts_A", Column.strs ["9"]), ("Val_A", Column.strs ["1"])]).length ∧
    (∃ ws, resolveHeaderDict (.sidecarFile (.existsWithBytes none))
        (statusColumns [("Sts_A", Column.strs ["9"]), ("Val_A", Column.strs ["1"])]).length
        "Pen_" =
        .ok (placeholderRange
          (statusColumns [("Sts_A", Column.strs ["9"]), ("Val_A", Column.strs ["1"])]).length
          "Pen_", ws)) ∧
    ∃ out ws, convert_file_to_pd_dataframe
      [("Sts_A", Column.strs ["9"]), ("Val_A", Column.strs ["1"])]
      (.sidecarFile (.existsWithBytes none))
      { parsed_datetime_column_name := none } = .ok (out, ws) := by
  have habs : headerAbsent (.sidecarFile (.existsWithBytes none)) :=
    Or.inr ⟨.existsWithBytes none, [decodeWarnMsg], rfl, by decide⟩
  have hn : 1 ≤ (statusColumns [("Sts_A", Column.strs ["9"]),
      ("Val_A", Column.strs ["1"])]).length := by decide
  have h := C2_amended [("Sts_A", Column.strs ["9"]), ("Val_A", Column.strs ["1"])]
    (.sidecarFile (.existsWithBytes none))
    { parsed_datetime_column_name := none } habs hn (Or.inl rfl)
  exact ⟨habs, hn, h.1, h.2⟩

theorem findTokensAux_key_digits :
    ∀ (fuel : Nat) (cs : List Char) (kv : String × String),
      kv ∈ findTokensAux fuel cs → kv.1.data ≠ [] ∧ kv.1.data.all isAsciiDigit := by
  intro fuel
  induction fuel with
  | zero => intro cs kv h; simp [findTokensAux] at h
  | succ f ih =>
      intro cs kv h
      cases cs with
      | nil => simp [findTokensAux] at h
      | cons c rest =>
          by_cases hcond : isPyWhitespace c ∧ rest.takeWhile isAsciiDigit ≠ []
          · rw [findTokensAux, if_pos hcond] at h
            simp only [List.mem_cons] at h
            rcases h with h | h
            · subst h
              refine ⟨hcond.2, ?_⟩
              rw [List.all_eq_true]
              intro x hx
              exact List.mem_takeWhile_imp hx
            · exact ih _ kv h
          · rw [findTokensAux, if_neg hcond] at h
            exact ih _ kv h

theorem mem_of_lookup_eq_some {a : ColKey} {b : String} {l : HeaderDict}
    (h : List.lookup a l = some b) : (a, b) ∈ l := by
  induction l with
  | nil => simp [List.lookup] at h
  | cons hd tl ih =>
      cases hk : a == hd.1 with
      | true =>
          simp only [List.lookup, hk, Option.some.injEq] at h
          have ha : a = hd.1 := eq_of_beq hk
          rw [ha, ← h]
          exact List.mem_cons_self _ _
      | false =>
          simp only [List.lookup, hk] at h
          exact List.mem_cons_of_mem _ (ih h)

theorem mem_dictInsert_key (d : HeaderDict) (k : ColKey) (v : String) :
    ∀ kv ∈ dictInsert d k v, kv.1 = k ∨ kv.1 ∈ d.map Prod.fst := by
  intro kv h
  unfold dictInsert at h
  split at h
  · obtain ⟨p, hp, hmap⟩ := List.mem_map.mp h
    by_cases hpk : p.1 = k
    · rw [if_pos hpk] at hmap
      subst hmap
      exact Or.inl rfl
    · rw [if_neg hpk] at hmap
      subst hmap
      exact Or.inr (List.mem_map.mpr ⟨p, hp, rfl⟩)
  · rcases List.mem_append.mp h with h | h
    · exact Or.inr (List.mem_map.mpr ⟨kv, h, rfl⟩)
    · simp only [List.mem_singleton] at h
      subst h
      exact Or.inl rfl

theorem dictOfTokens_foldl_keys (ts : List (String × String)) :
    ∀ (d : HeaderDict) (kv : ColKey × String),
      kv ∈ ts.foldl (fun d kv => dictInsert d (.str kv.1) kv.2) d →
      kv.1 ∈ d.map Prod.fst ∨ ∃ t ∈ ts, kv.1 = .str t.1 := by
  induction ts with
  | nil => intro d kv h; exact Or.inl (List.mem_map.mpr ⟨kv, h, rfl⟩)
  | cons t ts ih =>
      intro d kv h
      rw [List.foldl_cons] at h
      rcases ih (dictInsert d (.str t.1) t.2) kv h with hk | ⟨t', ht', hkey⟩
      · obtain ⟨kv', hkv', hfst⟩ := List.mem_map.mp hk
        rcases mem_dictInsert_key d (.str t.1) t.2 kv' hkv' with h₁ | h₁
        · exact Or.inr ⟨t, List.mem_cons_self _ _, by rw [← hfst, h₁]⟩
        · exact Or.inl (by rw [← hfst]; exact h₁)
      · exact Or.inr ⟨t', List.mem_cons_of_mem _ ht', hkey⟩

theorem dictOfTokens_keys (ts : List (String × String)) :
    ∀ kv ∈ dictOfTokens ts, ∃ t ∈ ts, kv.1 = ColKey.str t.1 := by
  intro kv h
  rcases dictOfTokens_foldl_keys ts [] kv h with hk | hk
  · simp at hk
  · exact hk

/-- Key shapes of every resolved header mapping: placeholder mappings have
integer keys, parsed sidecar mappings have non-empty all-digit string keys. -/
theorem resolveHeaderDict_keys (hs : HeaderSource) (n : Nat) (p : String)
    (dict : HeaderDict) (ws : List String)
    (hres : resolveHeaderDict hs n p = .ok (dict, ws)) :
    ∀ kv ∈ dict, (∃ m, kv.1 = ColKey.int m) ∨
      (∃ ks : String, kv.1 = ColKey.str ks ∧ ks.data ≠ [] ∧ ks.data.all isAsciiDigit) := by
  have hplaceholder : ∀ (d : HeaderDict),
      _make_placeholder_header_dict (.intVal n) (.strVal p) = .ok d →
      ∀ kv ∈ d, (∃ m, kv.1 = ColKey.int m) ∨
        (∃ ks : String, kv.1 = ColKey.str ks ∧ ks.data ≠ [] ∧ ks.data.all isAsciiDigit) := by
    intro d hd kv hkv
    by_cases hn : (n : Int) < 1
    · simp [_make_placeholder_header_dict, hn] at hd
    · simp [_make_placeholder_header_dict, hn] at hd
      subst hd
      obtain ⟨j, _, hj⟩ := List.mem_map.mp hkv
      exact Or.inl ⟨j, by rw [← hj]⟩
  have hparsed : ∀ (arg : FileArg) (d : HeaderDict) (ws' : List String),
      _parse_header_file arg = .ok (some d, ws') →
      ∀ kv ∈ d, (∃ m, kv.1 = ColKey.int m) ∨
        (∃ ks : String, kv.1 = ColKey.str ks ∧ ks.data ≠ [] ∧ ks.data.all isAsciiDigit) := by
    intro arg d ws' hd kv hkv
    cases arg with
    | badType => simp [_parse_header_file] at hd
    | missingFile => simp [_parse_header_file] at hd
    | existsWithBytes decoded =>
        cases decoded with
        | none => simp [_parse_header_file, parseHeaderTry] at hd
        | some s =>
            by_cases h₀ : s.length = 0
            · simp [_parse_header_file, parseHeaderTry, h₀] at hd
            · by_cases h₁ : (findTokens s).length = 0
              · simp [_parse_header_file, parseHeaderTry, h₀, h₁] at hd
              · have hds : d = dictOfTokens (findTokens s) := by
                  simp [_parse_header_file, parseHeaderTry, h₀, h₁] at hd
                  exact hd.1.symm
                subst hds
                obtain ⟨t, ht, hkey⟩ := dictOfTokens_keys (findTokens s) kv hkv
                have := findTokensAux_key_digits s.data.length s.data t ht
                exact Or.inr ⟨t.1, hkey, this.1, this.2⟩
  cases hs with
  | noSidecar =>
      simp only [resolveHeaderDict] at hres
      cases hmk : _make_placeholder_header_dict (.intVal n) (.strVal p) with
      | error e => rw [hmk] at hres; cases hres
      | ok d =>
          rw [hmk] at hres
          cases hres
          exact hplaceholder _ hmk
  | sidecarFile arg =>
      simp only [resolveHeaderDict] at hres
      cases hp : _parse_header_file arg with
      | error e => rw [hp] at hres; cases hres
      | ok r =>
          obtain ⟨hd, ws'⟩ := r
          rw [hp] at hres
          cases hd with
          | none =>
              simp only at hres
              cases hmk : _make_placeholder_header_dict (.intVal n) (.strVal p) with
              | error e => rw [hmk] at hres; cases hres
              | ok d =>
                  rw [hmk] at hres
                  cases hres
                  exact hplaceholder _ hmk
          | some d' =>
              simp only at hres
              by_cases hemp : d'.isEmpty
              · rw [if_pos hemp] at hres
                cases hmk : _make_placeholder_header_dict (.intVal n) (.strVal p) with
                | error e => rw [hmk] at hres; cases hres
                | ok d =>
                    rw [hmk] at hres
                    cases hres
                    exact hplaceholder _ hmk
              · rw [if_neg hemp] at hres
                cases hres
                exact hparsed arg _ _ hp

/-- A column whose name contains a non-digit character is never renamed by a
mapping that `resolveHeaderDict` produced: placeholder keys are integers and
parsed keys are all-digit strings. -/
theorem renameColumn_resolved_nondigit (hs : HeaderSource) (n : Nat) (p : String)
    (dict : HeaderDict) (ws : List String)
    (hres : resolveHeaderDict hs n p = .ok (dict, ws))
    (c : String) (hc : c.data.all isAsciiDigit = false) :
    renameColumn dict c = c := by
  unfold renameColumn
  cases hl : List.lookup (ColKey.str c) dict with
  | none => rfl
  | some v =>
      exfalso
      have hmem := mem_of_lookup_eq_some hl
      rcases resolveHeaderDict_keys hs n p dict ws hres _ hmem with ⟨m, hm⟩ | ⟨ks, hk, _, hdig⟩
      · cases hm
      · have : ks = c := by
          have := hk
          injection this with h
          exact h.symm
        rw [this] at hdig
        rw [hc] at hdig
        cases hdig

/-- A column that is neither a status column nor `"Marker"` survives the
pruning step with its values untouched. -/
theorem mem_pruneColumns (df : DataFrame) (ks km : Bool) (name : String) (col : Column)
    (h : (name, col) ∈ df) (h₁ : ¬ (name.data.take 4 = "Sts_".data)) (h₂ : name ≠ "Marker") :
    (name, col) ∈ pruneColumns df ks km := by
  have hndf : name ∉ statusColumns df := by
    intro hmem
    unfold statusColumns at hmem
    exact h₁ (by simpa using (List.mem_filter.mp hmem).2)
  have hmem₁ : (name, col) ∈ pruneStatusColumns df ks := by
    unfold pruneStatusColumns
    split
    · exact List.mem_filter.mpr ⟨h, by simpa using hndf⟩
    · exact h
  unfold pruneColumns
  split
  · exact List.mem_filter.mpr ⟨hmem₁, by simpa using h₂⟩
  · exact hmem₁

/-- C9 as stated is false for the same reason as C2: with timestamp
generation disabled and drop/move options requested, an invocation with no
sidecar and zero status columns still aborts with `ValueError` from the
placeholder synthesis, instead of merely logging the no-effect warning. -/
theorem C9_counterexample :
    convert_file_to_pd_dataframe
      [("Date", .strs ["2024-01-02"]), ("Time", .strs ["03:04:05"]),
       ("Millitm", .strs ["67"])]
      .noSidecar
      { parsed_datetime_column_name := none,
        drop_original_datetime_column := true } = .error .valueError ∧
    ({ parsed_datetime_column_name := none,
       drop_original_datetime_column := true : ConvertConfig }.parsed_datetime_column_name
      = none) ∧
    ({ parsed_datetime_column_name := none,
       drop_original_datetime_column := true : ConvertConfig }.drop_original_datetime_column
      = true) := by
  refine ⟨by decide, rfl, rfl⟩

/-- C9 (amended): for every invocation with `parsed_datetime_column_name =
None` and `drop_original_datetime_column` and/or
`put_parsed_datetime_column_first` set, **provided header-mapping resolution
succeeds** (it fails independently of these options when a placeholder is
needed for zero status columns, see the counterexample), the pipeline raises
no exception, returns exactly the pruned-and-renamed frame — so no timestamp
column is added and nothing is dropped or moved — leaves the three original
source fields present with unchanged values, and logs the no-effect
warning. -/
theorem C9_amended :
    ∀ (df : DataFrame) (hs : HeaderSource) (cfg : ConvertConfig)
      (dict : HeaderDict) (ws₁ : List String),
      cfg.parsed_datetime_column_name = none →
      (cfg.drop_original_datetime_column = true ∨
        cfg.put_parsed_datetime_column_first = true) →
      resolveHeaderDict hs (statusColumns df).length
        cfg.missing_header_file_column_prefix = .ok (dict, ws₁) →
      convert_file_to_pd_dataframe df hs cfg =
        .ok (renameColumns dict
              (pruneColumns df cfg.keep_status_columns cfg.keep_marker_column),
             ws₁ ++ [noEffectWarnMsg]) ∧
      (∀ col : Column, ("Date", col) ∈ df →
        ("Date", col) ∈ renameColumns dict
          (pruneColumns df cfg.keep_status_columns cfg.keep_marker_column)) ∧
      (∀ col : Column, ("Time", col) ∈ df →
        ("Time", col) ∈ renameColumns dict
          (pruneColumns df cfg.keep_status_columns cfg.keep_marker_column)) ∧
      (∀ col : Column, ("Millitm", col) ∈ df →
        ("Millitm", col) ∈ renameColumns dict
          (pruneColumns df cfg.keep_status_columns cfg.keep_marker_column)) := by
  intro df hs cfg dict ws₁ hname hflags hres
  have hkeep : ∀ (nm : String) (col : Column), ("Sts_".data ≠ nm.data.take 4) →
      nm ≠ "Marker" → nm.data.all isAsciiDigit = false → (nm, col) ∈ df →
      (nm, col) ∈ renameColumns dict
        (pruneColumns df cfg.keep_status_columns cfg.keep_marker_column) := by
    intro nm col hsts hmk hdig hcol
    have hp := mem_pruneColumns df cfg.keep_status_columns cfg.keep_marker_column
      nm col hcol (fun h => hsts h.symm) hmk
    have hrn := renameColumn_resolved_nondigit hs (statusColumns df).length
      cfg.missing_header_file_column_prefix dict ws₁ hres nm hdig
    exact List.mem_map.mpr ⟨(nm, col), hp, by rw [hrn]⟩
  refine ⟨?_, ?_, ?_, ?_⟩
  · unfold convert_file_to_pd_dataframe
    simp only [hres, hname]
    rw [if_pos hflags]
  · intro col hcol
    exact hkeep "Date" col (by decide) (by decide) (by decide) hcol
  · intro col hcol
    exact hkeep "Time" col (by decide) (by decide) (by decide) hcol
  · intro col hcol
    exact hkeep "Millitm" col (by decide) (by decide) (by decide) hcol

/-- Witness for the amended C9: a frame with one status column, no sidecar,
timestamp generation disabled while the move-first option is set. -/
theorem C9_amended_witness :
    ({ parsed_datetime_column_name := none : ConvertConfig }.parsed_datetime_column_name
        = none) ∧
    ({ parsed_datetime_column_name := none :
        ConvertConfig }.put_parsed_datetime_column_first = true) ∧
    resolveHeaderDict .noSidecar
      (statusColumns [("Date", Column.strs ["2023-03-23"]), ("Time", Column.strs ["18:45:20"]),
        ("Millitm", Column.strs ["8"]), ("Sts_Pen0", Column.strs ["0"])]).length
      "Pen_" = .ok ([(.int 0, "Pen_00")], []) ∧
    convert_file_to_pd_dataframe
      [("Date", Column.strs ["2023-03-23"]), ("Time", Column.strs ["18:45:20"]),
       ("Millitm", Column.strs ["8"]), ("Sts_Pen0", Column.strs ["0"])]
      .noSidecar { parsed_datetime_column_name := none } =
      .ok (renameColumns [(.int 0, "Pen_00")]
            (pruneColumns
              [("Date", Column.strs ["2023-03-23"]), ("Time", Column.strs ["18:45:20"]),
               ("Millitm", Column.strs ["8"]), ("Sts_Pen0", Column.strs ["0"])]
              false false),
           [] ++ [noEffectWarnMsg]) ∧
    ("Date", Column.strs ["2023-03-23"]) ∈ renameColumns [(.int 0, "Pen_00")]
      (pruneColumns
        [("Date", Column.strs ["2023-03-23"]), ("Time", Column.strs ["18:45:20"]),
         ("Millitm", Column.strs ["8"]), ("Sts_Pen0", Column.strs ["0"])]
        false false) := by
  have hres : resolveHeaderDict .noSidecar
      (statusColumns [("Date", Column.strs ["2023-03-23"]), ("Time", Column.strs ["18:45:20"]),
        ("Millitm", Column.strs ["8"]), ("Sts_Pen0", Column.strs ["0"])]).length
      "Pen_" = .ok ([(.int 0, "Pen_00")], []) := by decide
  have h := C9_amended
    [("Date", Column.strs ["2023-03-23"]), ("Time", Column.strs ["18:45:20"]),
     ("Millitm", Column.strs ["8"]), ("Sts_Pen0", Column.strs ["0"])]
    .noSidecar { parsed_datetime_column_name := none }
    [(.int 0, "Pen_00")] [] rfl (Or.inr rfl) hres
  exact ⟨rfl, rfl, hres, h.1, h.2.1 (Column.strs ["2023-03-23"]) (by decide)⟩

theorem mem_statusColumns (df : DataFrame) (c : String) :
    c ∈ statusColumns df ↔ c ∈ namesOf df ∧ c.data.take 4 = "Sts_".data := by
  unfold statusColumns
  rw [List.mem_filter]
  simp

theorem mem_namesOf_filter (df : DataFrame) (p : (String × Column) → Bool) (c : String) :
    c ∈ namesOf (df.filter p) → c ∈ namesOf df := by
  intro h
  obtain ⟨pr, hpr, rfl⟩ := List.mem_map.mp h
  exact List.mem_map.mpr ⟨pr, (List.mem_filter.mp hpr).1, rfl⟩

/-- With `keep_status_columns = False`, no surviving column of the pruned
frame has the `"Sts_"` prefix. -/
theorem pruneColumns_no_status (df : DataFrame) (km : Bool) :
    ∀ c ∈ namesOf (pruneColumns df false km), ¬ (c.data.take 4 = "Sts_".data) := by
  intro c hc hsts
  have hc₁ : c ∈ namesOf (pruneStatusColumns df false) := by
    unfold pruneColumns at hc
    split at hc
    · exact mem_namesOf_filter _ _ _ hc
    · exact hc
  unfold pruneStatusColumns at hc₁
  split at hc₁
  case isTrue h =>
      obtain ⟨pr, hpr, rfl⟩ := List.mem_map.mp hc₁
      have hmf := List.mem_filter.mp hpr
      have hmem : pr.1 ∈ statusColumns df :=
        (mem_statusColumns df pr.1).mpr ⟨List.mem_map.mpr ⟨pr, hmf.1, rfl⟩, hsts⟩
      have := hmf.2
      simp only [decide_eq_true_eq] at this
      exact this hmem
  case isFalse h =>
      have hlen : (statusColumns df).length = 0 := by
        by_contra hlen
        exact h ⟨by simp, Nat.pos_of_ne_zero hlen⟩
      have hmem : c ∈ statusColumns df := (mem_statusColumns df c).mpr ⟨hc₁, hsts⟩
      rw [List.length_eq_zero] at hlen
      rw [hlen] at hmem
      cases hmem

/-- With `keep_marker_column = False`, `"Marker"` is not among the pruned
frame's columns. -/
theorem pruneColumns_no_marker (df : DataFrame) (ks : Bool) :
    "Marker" ∉ namesOf (pruneColumns df ks false) := by
  intro h
  unfold pruneColumns at h
  split at h
  case isTrue hcond =>
      obtain ⟨pr, hpr, hfst⟩ := List.mem_map.mp h
      have := (List.mem_filter.mp hpr).2
      simp only [decide_eq_true_eq] at this
      exact this hfst
  case isFalse hcond =>
      exact hcond ⟨by simp, h⟩

theorem mem_namesOf_rename (dict : HeaderDict) (df : DataFrame) (c : String) :
    c ∈ namesOf (renameColumns dict df) →
    ∃ c₀, c₀ ∈ namesOf df ∧ c = renameColumn dict c₀ := by
  intro h
  obtain ⟨pr, hpr, rfl⟩ := List.mem_map.mp h
  obtain ⟨p, hp, rfl⟩ := List.mem_map.mp hpr
  exact ⟨p.1, List.mem_map.mpr ⟨p, hp, rfl⟩, rfl⟩

theorem renameColumn_cases (dict : HeaderDict) (c₀ : String) :
    renameColumn dict c₀ = c₀ ∨ ∃ kv ∈ dict, renameColumn dict c₀ = kv.2 := by
  unfold renameColumn
  cases hl : List.lookup (ColKey.str c₀) dict with
  | none => exact Or.inl rfl
  | some v => exact Or.inr ⟨(ColKey.str c₀, v), mem_of_lookup_eq_some hl, rfl⟩

theorem mem_namesOf_setColumn (df : DataFrame) (name : String) (vals : Column) (c : String) :
    c ∈ namesOf (setColumn df name vals) → c ∈ namesOf df ∨ c = name := by
  intro h
  unfold setColumn at h
  split at h
  · obtain ⟨pr, hpr, rfl⟩ := List.mem_map.mp h
    obtain ⟨p, hp, heq⟩ := List.mem_map.mp hpr
    have hfst : pr.1 = p.1 := by
      rw [← heq]
      split <;> rfl
    exact Or.inl (List.mem_map.mpr ⟨p, hp, hfst.symm⟩)
  · unfold namesOf at h
    rw [List.map_append, List.mem_append] at h
    rcases h with h | h
    · exact Or.inl h
    · simp only [List.map_cons, List.map_nil, List.mem_singleton] at h
      exact Or.inr h

theorem mem_namesOf_moveToFront (df : DataFrame) (name c : String) (out : DataFrame)
    (hmv : moveColumnToFront df name = .ok out) :
    c ∈ namesOf out → c = name ∨ c ∈ namesOf df := by
  unfold moveColumnToFront at hmv
  cases hl : List.lookup name df with
  | none => rw [hl] at hmv; cases hmv
  | some col =>
      rw [hl] at hmv
      cases hmv
      intro h
      unfold namesOf at h
      rw [List.map_cons, List.mem_cons] at h
      rcases h with h | h
      · exact Or.inl h
      · exact Or.inr (mem_namesOf_filter df _ c h)

/-- C7 (amended): with `keep_status_columns = False`, every column of the
raw frame whose name starts with `"Sts_"` is dropped, and with
`keep_marker_column = False` the column named `"Marker"` is dropped;
a name of that shape can reappear in the result only through the resolved
header mapping's values or through the configured parsed-datetime column
name, so under the proviso that neither introduces such a name, the result
contains no `"Sts_"`-prefixed column and no `"Marker"` column. -/
theorem C7_amended :
    ∀ (df : DataFrame) (hs : HeaderSource) (cfg : ConvertConfig)
      (dict : HeaderDict) (ws₁ : List String) (out : DataFrame) (ws : List String),
      resolveHeaderDict hs (statusColumns df).length
        cfg.missing_header_file_column_prefix = .ok (dict, ws₁) →
      convert_file_to_pd_dataframe df hs cfg = .ok (out, ws) →
      (cfg.keep_status_columns = false →
        (∀ kv ∈ dict, ¬ ((kv.2 : String).data.take 4 = "Sts_".data)) →
        (∀ nm, cfg.parsed_datetime_column_name = some nm →
          ¬ (nm.data.take 4 = "Sts_".data)) →
        ∀ c ∈ namesOf out, ¬ (c.data.take 4 = "Sts_".data)) ∧
      (cfg.keep_marker_column = false →
        (∀ kv ∈ dict, (kv.2 : String) ≠ "Marker") →
        (∀ nm, cfg.parsed_datetime_column_name = some nm → nm ≠ "Marker") →
        "Marker" ∉ namesOf out) := by
  intro df hs cfg dict ws₁ out ws hres hconv
  have hnames : ∀ c ∈ namesOf out,
      (∃ c₀, c₀ ∈ namesOf (pruneColumns df cfg.keep_status_columns cfg.keep_marker_column) ∧
        c = renameColumn dict c₀) ∨
      (∃ nm, cfg.parsed_datetime_column_name = some nm ∧ c = nm) := by
    unfold convert_file_to_pd_dataframe at hconv
    simp only [hres] at hconv
    cases hname : cfg.parsed_datetime_column_name with
    | none =>
        rw [hname] at hconv
        have hconv₂ :
            ((if cfg.drop_original_datetime_column = true ∨
                cfg.put_parsed_datetime_column_first = true then
              Except.ok
                (renameColumns dict
                  (pruneColumns df cfg.keep_status_columns cfg.keep_marker_column),
                 ws₁ ++ [noEffectWarnMsg])
            else
              Except.ok
                (renameColumns dict
                  (pruneColumns df cfg.keep_status_columns cfg.keep_marker_column),
                 ws₁)) : Except PyError (DataFrame × List String)) =
              Except.ok (out, ws) := hconv
        have hout : out = renameColumns dict
            (pruneColumns df cfg.keep_status_columns cfg.keep_marker_column) := by
          split at hconv₂ <;>
            (rw [Except.ok.injEq, Prod.mk.injEq] at hconv₂; exact hconv₂.1.symm)
        intro c hc
        rw [hout] at hc
        exact Or.inl (mem_namesOf_rename dict _ c hc)
    | some nm =>
        rw [hname] at hconv
        cases hp : _parse_date_column (renameColumns dict
            (pruneColumns df cfg.keep_status_columns cfg.keep_marker_column)) with
        | error e =>
            rw [hp] at hconv
            exact absurd hconv (by simp)
        | ok parsed =>
            rw [hp] at hconv
            have hconv₂ :
                ((if cfg.put_parsed_datetime_column_first = true then
                  (match moveColumnToFront
                      (if cfg.drop_original_datetime_column = true then
                        (setColumn (renameColumns dict (pruneColumns df
                          cfg.keep_status_columns cfg.keep_marker_column)) nm
                          (Column.dts parsed)).filter
                            (fun p => ¬ p.1 ∈ ["Date", "Time", "Millitm"])
                      else
                        setColumn (renameColumns dict (pruneColumns df
                          cfg.keep_status_columns cfg.keep_marker_column)) nm
                          (Column.dts parsed))
                      nm with
                   | Except.error e => Except.error e
                   | Except.ok df₆ => Except.ok (df₆, ws₁))
                else
                  Except.ok
                    (if cfg.drop_original_datetime_column = true then
                      (setColumn (renameColumns dict (pruneColumns df
                        cfg.keep_status_columns cfg.keep_marker_column)) nm
                        (Column.dts parsed)).filter
                          (fun p => ¬ p.1 ∈ ["Date", "Time", "Millitm"])
                    else
                      setColumn (renameColumns dict (pruneColumns df
                        cfg.keep_status_columns cfg.keep_marker_column)) nm
                        (Column.dts parsed),
                     ws₁)) : Except PyError (DataFrame × List String)) =
                  Except.ok (out, ws) := hconv
            intro c hc
            have hc₅ : c = nm ∨ c ∈ namesOf
                (if cfg.drop_original_datetime_column = true then
                  (setColumn (renameColumns dict (pruneColumns df cfg.keep_status_columns
                    cfg.keep_marker_column)) nm (Column.dts parsed)).filter
                      (fun p => ¬ p.1 ∈ ["Date", "Time", "Millitm"])
                else setColumn (renameColumns dict (pruneColumns df cfg.keep_status_columns
                  cfg.keep_marker_column)) nm (Column.dts parsed)) := by
              by_cases hf : cfg.put_parsed_datetime_column_first = true
              · rw [if_pos hf] at hconv₂
                cases hmv : moveColumnToFront
                    (if cfg.drop_original_datetime_column = true then
                      (setColumn (renameColumns dict (pruneColumns df
                        cfg.keep_status_columns cfg.keep_marker_column)) nm
                        (Column.dts parsed)).filter
                          (fun p => ¬ p.1 ∈ ["Date", "Time", "Millitm"])
                    else
                      setColumn (renameColumns dict (pruneColumns df
                        cfg.keep_status_columns cfg.keep_marker_column)) nm
                        (Column.dts parsed))
                    nm with
                | error e =>
                    rw [hmv] at hconv₂
                    exact absurd hconv₂ (by simp)
                | ok df₆ =>
                    rw [hmv] at hconv₂
                    have hconv₃ : (Except.ok (df₆, ws₁) :
                        Except PyError (DataFrame × List String)) =
                        Except.ok (out, ws) := hconv₂
                    rw [Except.ok.injEq, Prod.mk.injEq] at hconv₃
                    rw [← hconv₃.1] at hc
                    exact mem_namesOf_moveToFront _ nm c df₆ hmv hc
              · rw [if_neg hf] at hconv₂
                rw [Except.ok.injEq, Prod.mk.injEq] at hconv₂
                rw [← hconv₂.1] at hc
                exact Or.inr hc
            have hc₄ : c = nm ∨ c ∈ namesOf
                (setColumn (renameColumns dict (pruneColumns df cfg.keep_status_columns
                  cfg.keep_marker_column)) nm (Column.dts parsed)) := by
              rcases hc₅ with h | h
              · exact Or.inl h
              · by_cases hd : cfg.drop_original_datetime_column = true
                · rw [if_pos hd] at h
                  exact Or.inr (mem_namesOf_filter _ _ _ h)
                · rw [if_neg hd] at h
                  exact Or.inr h
            rcases hc₄ with h | h
            · exact Or.inr ⟨nm, rfl, h⟩
            · rcases mem_namesOf_setColumn _ _ _ _ h with h | h
              · exact Or.inl (mem_namesOf_rename dict _ c h)
              · exact Or.inr ⟨nm, rfl, h⟩
  constructor
  · intro hks hdict hdt c hc hsts
    rcases hnames c hc with ⟨c₀, hc₀, hcrn⟩ | ⟨nm, hnm, hceq⟩
    · rcases renameColumn_cases dict c₀ with hr | ⟨kv, hkv, hr⟩
      · rw [hks] at hc₀
        rw [hcrn, hr] at hsts
        exact pruneColumns_no_status df cfg.keep_marker_column c₀ hc₀ hsts
      · rw [hcrn, hr] at hsts
        exact hdict kv hkv hsts
    · rw [hceq] at hsts
      exact hdt nm hnm hsts
  · intro hkm hdict hdt hc
    rcases hnames "Marker" hc with ⟨c₀, hc₀, hcrn⟩ | ⟨nm, hnm, hceq⟩
    · rcases renameColumn_cases dict c₀ with hr | ⟨kv, hkv, hr⟩
      · rw [hkm] at hc₀
        rw [hr] at hcrn
        rw [← hcrn] at hc₀
        exact pruneColumns_no_marker df cfg.keep_status_columns hc₀
      · rw [hr] at hcrn
        exact hdict kv hkv hcrn.symm
    · exact hdt nm hnm hceq.symm

/-- C7 as stated is false: the configuration surface can reintroduce a
`"Sts_"`-named column after pruning.  Naming the parsed datetime column
`"Sts_X"` makes the returned frame contain a column starting with `"Sts_"`
even though `keep_status_columns = False` (and the original status column
was dropped).  The header mapping can likewise rename a pen column to such
a name. -/
theorem C7_counterexample :
    convert_file_to_pd_dataframe
      [("Date", .strs ["2023-03-23"]), ("Time", .strs ["18:45:20"]),
       ("Millitm", .strs ["8"]), ("Sts_A", .strs ["9"])]
      .noSidecar { parsed_datetime_column_name := some "Sts_X" } =
      .ok ([("Sts_X", .dts [⟨2023, 3, 23, 18, 45, 20, 8000⟩]),
            ("Date", .strs ["2023-03-23"]), ("Time", .strs ["18:45:20"]),
            ("Millitm", .strs ["8"])], []) ∧
    "Sts_X" ∈ namesOf [("Sts_X", Column.dts [⟨2023, 3, 23, 18, 45, 20, 8000⟩]),
            ("Date", Column.strs ["2023-03-23"]), ("Time", Column.strs ["18:45:20"]),
            ("Millitm", Column.strs ["8"])] ∧
    ("Sts_X" : String).data.take 4 = "Sts_".data ∧
    ({ parsed_datetime_column_name := some "Sts_X" : ConvertConfig }.keep_status_columns
      = false) := by
  refine ⟨by decide, by decide, by decide, rfl⟩

/-- Witness for the amended C7: a frame with one status column, a `Marker`
column, and a pen column `"0"` renamed to `"Flow"` by a parsed sidecar;
neither the mapping values nor the datetime name reintroduce a pruned
name, and indeed the result has no `"Sts_"` column and no `"Marker"`. -/
theorem C7_amended_witness :
    resolveHeaderDict (.sidecarFile (.existsWithBytes (some " 0Flow")))
      (statusColumns [("0", Column.strs ["1.5"]), ("Date", Column.strs ["2023-03-23"]),
        ("Time", Column.strs ["18:45:20"]), ("Millitm", Column.strs ["8"]),
        ("Sts_0", Column.strs ["9"]), ("Marker", Column.strs ["m"])]).length
      "Pen_" = .ok ([(.str "0", "Flow")], []) ∧
    convert_file_to_pd_dataframe
      [("0", .strs ["1.5"]), ("Date", .strs ["2023-03-23"]),
       ("Time", .strs ["18:45:20"]), ("Millitm", .strs ["8"]),
       ("Sts_0", .strs ["9"]), ("Marker", .strs ["m"])]
      (.sidecarFile (.existsWithBytes (some " 0Flow"))) {} =
      .ok ([("datetime", .dts [⟨2023, 3, 23, 18, 45, 20, 8000⟩]),
            ("Flow", .strs ["1.5"]), ("Date", .strs ["2023-03-23"]),
            ("Time", .strs ["18:45:20"]), ("Millitm", .strs ["8"])], []) ∧
    (∀ c ∈ namesOf [("datetime", Column.dts [⟨2023, 3, 23, 18, 45, 20, 8000⟩]),
            ("Flow", Column.strs ["1.5"]), ("Date", Column.strs ["2023-03-23"]),
            ("Time", Column.strs ["18:45:20"]), ("Millitm", Column.strs ["8"])],
      ¬ (c.data.take 4 = "Sts_".data)) ∧
    "Marker" ∉ namesOf [("datetime", Column.dts [⟨2023, 3, 23, 18, 45, 20, 8000⟩]),
            ("Flow", Column.strs ["1.5"]), ("Date", Column.strs ["2023-03-23"]),
            ("Time", Column.strs ["18:45:20"]), ("Millitm", Column.strs ["8"])] := by
  have hres : resolveHeaderDict (.sidecarFile (.existsWithBytes (some " 0Flow")))
      (statusColumns [("0", Column.strs ["1.5"]), ("Date", Column.strs ["2023-03-23"]),
        ("Time", Column.strs ["18:45:20"]), ("Millitm", Column.strs ["8"]),
        ("Sts_0", Column.strs ["9"]), ("Marker", Column.strs ["m"])]).length
      "Pen_" = .ok ([(.str "0", "Flow")], []) := by decide
  have hconv : convert_file_to_pd_dataframe
      [("0", .strs ["1.5"]), ("Date", .strs ["2023-03-23"]),
       ("Time", .strs ["18:45:20"]), ("Millitm", .strs ["8"]),
       ("Sts_0", .strs ["9"]), ("Marker", .strs ["m"])]
      (.sidecarFile (.existsWithBytes (some " 0Flow"))) {} =
      .ok ([("datetime", .dts [⟨2023, 3, 23, 18, 45, 20, 8000⟩]),
            ("Flow", .strs ["1.5"]), ("Date", .strs ["2023-03-23"]),
            ("Time", .strs ["18:45:20"]), ("Millitm", .strs ["8"])], []) := by decide
  have h := C7_amended
    [("0", .strs ["1.5"]), ("Date", .strs ["2023-03-23"]),
     ("Time", .strs ["18:45:20"]), ("Millitm", .strs ["8"]),
     ("Sts_0", .strs ["9"]), ("Marker", .strs ["m"])]
    (.sidecarFile (.existsWithBytes (some " 0Flow"))) {}
    [(.str "0", "Flow")] []
    [("datetime", .dts [⟨2023, 3, 23, 18, 45, 20, 8000⟩]),
     ("Flow", .strs ["1.5"]), ("Date", .strs ["2023-03-23"]),
     ("Time", .strs ["18:45:20"]), ("Millitm", .strs ["8"])] []
    hres hconv
  refine ⟨hres, hconv, ?_, ?_⟩
  · exact h.1 rfl (by decide) (by intro nm hnm; cases hnm; decide)
  · exact h.2 rfl (by decide) (by intro nm hnm; cases hnm; decide)
